import Mathlib

/-!
Shallow embedding of `custom_components/weatherflow/weather.py`
(hass-weatherflow): the condition-code mapper `format_condition`, the
`WeatherFlowWeatherEntity` current-condition accessors, and the forecast
projection, together with theorems checking the specification's claims.

Python conventions embedded:
* optional values are `Option`;
* a 2-argument `getattr(obj, "field")` where `obj` may be `None` raises
  `AttributeError`; this fallible access is embedded as `PyResult`;
* Python `round` is round-half-to-even on the mathematical value
  (floats are idealized as rationals);
* the condition table (`CONDITION_CLASSES`, a dict of canonical key to
  list of vendor codes, defined in `const.py`) is an ordered association
  list, matching dict iteration order.
-/

/-- Result of a Python expression that may raise `AttributeError`
(as 2-argument `getattr` does on a `None` object). -/
inductive PyResult (α : Type) where
  | ok (val : α) : PyResult α
  | attributeError : PyResult α
deriving DecidableEq, Repr

/-- Python 2-argument `getattr(obj, "field")`: raises `AttributeError` when the
object is `None`, otherwise reads the field. -/
def getattr2 {α β : Type} (obj : Option α) (field : α → β) : PyResult β :=
  match obj with
  | none => PyResult.attributeError
  | some o => PyResult.ok (field o)

/-- The condition table `CONDITION_CLASSES` from `const.py` (not part of the
analysed file): an ordered mapping from canonical condition key to the list
of vendor condition codes meaning it. -/
abbrev ConditionTable := List (String × List String)

/-- Python's `condition in v` for a possibly-`None` condition and a list of
strings (`None in v` is simply false when `v` holds no `None`). -/
def pyIn (condition : Option String) (v : List String) : Bool :=
  match condition with
  | none => false
  | some c => v.contains c

/-- Source `format_condition` (weather.py lines 58-63):
`next((k for k, v in CONDITION_CLASSES.items() if condition in v), None)`. -/
def format_condition (condition : Option String) (table : ConditionTable) :
    Option String :=
  (table.find? (fun kv => pyIn condition kv.2)).map Prod.fst

/-- Python round-half-to-even of a rational, as `round` does on the
mathematical value of its argument. -/
def roundHalfEven (q : ℚ) : ℤ :=
  if q - (⌊q⌋ : ℚ) < 1 / 2 then ⌊q⌋
  else if (1 : ℚ) / 2 < q - (⌊q⌋ : ℚ) then ⌊q⌋ + 1
  else if ⌊q⌋ % 2 = 0 then ⌊q⌋ else ⌊q⌋ + 1

/-- Constant `TEMP_CELSIUS` from `homeassistant.const`. -/
def TEMP_CELSIUS : String := "°C"

/-- Current-observation snapshot (`self.coordinator.data`): the
`pyweatherflowrest` observation object, whose fields are optional. -/
structure CurrentObservation where
  air_temperature : Option ℚ
  relative_humidity : Option ℚ
  sea_level_pressure : Option ℚ
  wind_avg : Option ℚ
  wind_direction : Option ℚ
  visibility : Option ℚ
deriving DecidableEq

/-- An opaque Python value carried through the forecast projection
untouched (timestamps, temperatures, ...). -/
inductive Val where
  | vnone : Val
  | num : ℚ → Val
  | str : String → Val
  | instant : Int × Nat × Nat × Nat × Nat × Nat → Val
deriving DecidableEq

/-- A timezone-aware UTC instant (year, month, day, hour, minute, second),
the result type of the epoch-seconds conversion. -/
structure UTCDateTime where
  year : ℤ
  month : ℕ
  day : ℕ
  hour : ℕ
  minute : ℕ
  second : ℕ
deriving DecidableEq

/-- Gregorian civil date from a count of days since 1970-01-01
(Howard Hinnant's `civil_from_days`). -/
def civilFromDays (z : ℤ) : ℤ × ℕ × ℕ :=
  let z' := z + 719468
  let era := (if 0 ≤ z' then z' else z' - 146096) / 146097
  let doe := (z' - era * 146097).toNat
  let yoe := (doe - doe / 1460 + doe / 36524 - doe / 146096) / 365
  let y := (yoe : ℤ) + era * 400
  let doy := doe - (365 * yoe + yoe / 4 - yoe / 100)
  let mp := (5 * doy + 2) / 153
  let d := doy - (153 * mp + 2) / 5 + 1
  let m := if mp < 10 then mp + 3 else mp - 9
  (if m ≤ 2 then y + 1 else y, m, d)

/-- Modelled from the spec: `homeassistant.util.dt.utc_from_timestamp`
(not part of the analysed file) converts seconds since the Unix epoch
(UTC) into a timezone-aware UTC instant. -/
def utc_from_timestamp (ts : ℤ) : UTCDateTime :=
  let days := Int.fdiv ts 86400
  let secs := (ts - days * 86400).toNat
  let ymd := civilFromDays days
  { year := ymd.1, month := ymd.2.1, day := ymd.2.2,
    hour := secs / 3600, minute := secs % 3600 / 60, second := secs % 60 }

/-- Daily forecast record (`pyweatherflowrest` `ForecastDailyDescription`).
Fields the projection passes through unchanged are opaque `Val`s; `icon`
feeds the condition mapper and `sunrise`/`sunset` are epoch seconds. -/
structure ForecastDailyDescription where
  utc_time : Val
  air_temp_high : Val
  air_temp_low : Val
  precip : Val
  precip_probability : Val
  icon : Option String
  wind_avg : Val
  wind_direction : Val
  sunrise : ℤ
  sunset : ℤ
deriving DecidableEq

/-- Hourly forecast record (`pyweatherflowrest` `ForecastHourlyDescription`). -/
structure ForecastHourlyDescription where
  utc_time : Val
  air_temperature : Val
  precip : Val
  precip_probability : Val
  icon : Option String
  wind_avg : Val
  wind_gust : Val
  wind_direction : Val
  feels_like : Val
  uv : Val
deriving DecidableEq

/-- Forecast-coordinator snapshot (`self.forecast_coordinator.data`):
current icon plus the two forecast collections. -/
structure ForecastData where
  icon : Option String
  forecast_daily : List ForecastDailyDescription
  forecast_hourly : List ForecastHourlyDescription

/-- The external current-conditions coordinator, reduced to the data
snapshot the entity reads (`None` before the first refresh). -/
structure Coordinator where
  data : Option CurrentObservation

/-- The external forecast coordinator: data snapshot plus the
`last_update_success` flag. -/
structure ForecastCoordinator where
  data : Option ForecastData
  last_update_success : Bool

/-- Entity description (`WeatherEntityDescription`): key and name. -/
structure WeatherEntityDescription where
  key : String
  name : String

def _WEATHER_DAILY : String := "weather_daily"

def _WEATHER_HOURLY : String := "weather_hourly"

/-- Python's `in` operator on strings: substring containment. -/
def pyStrIn (sub s : String) : Bool :=
  s.toList.tails.any (fun t => sub.toList.isPrefixOf t)

/-- The dictionary keys of a projected forecast entry, one constructor per
`ATTR_FORECAST_*` string constant used in `weather.py`. -/
inductive AttrKey where
  | time | temp | temp_low | precipitation | precipitation_probability
  | condition | wind_speed | wind_gust | wind_bearing | sunrise | sunset
  | feels_like | uv
deriving DecidableEq

/-- A projected forecast entry: the dict built per record, as an ordered
key-value list. -/
abbrev ForecastEntry := List (AttrKey × Val)

/-- Lift the condition mapper's optional result into a `Val`. -/
def optStrVal : Option String → Val
  | none => Val.vnone
  | some s => Val.str s

/-- Lift a UTC instant into a `Val`. -/
def instantVal (d : UTCDateTime) : Val :=
  Val.instant (d.year, d.month, d.day, d.hour, d.minute, d.second)

/-- The dict built for one daily record (weather.py lines 183-196). -/
def daily_entry (item : ForecastDailyDescription) (table : ConditionTable) :
    ForecastEntry :=
  [(AttrKey.time, item.utc_time),
   (AttrKey.temp, item.air_temp_high),
   (AttrKey.temp_low, item.air_temp_low),
   (AttrKey.precipitation, item.precip),
   (AttrKey.precipitation_probability, item.precip_probability),
   (AttrKey.condition, optStrVal (format_condition item.icon table)),
   (AttrKey.wind_speed, item.wind_avg),
   (AttrKey.wind_bearing, item.wind_direction),
   (AttrKey.sunrise, instantVal (utc_from_timestamp item.sunrise)),
   (AttrKey.sunset, instantVal (utc_from_timestamp item.sunset))]

/-- The dict built for one hourly record (weather.py lines 204-217). -/
def hourly_entry (item : ForecastHourlyDescription) (table : ConditionTable) :
    ForecastEntry :=
  [(AttrKey.time, item.utc_time),
   (AttrKey.temp, item.air_temperature),
   (AttrKey.precipitation, item.precip),
   (AttrKey.precipitation_probability, item.precip_probability),
   (AttrKey.condition, optStrVal (format_condition item.icon table)),
   (AttrKey.wind_speed, item.wind_avg),
   (AttrKey.wind_gust, item.wind_gust),
   (AttrKey.wind_bearing, item.wind_direction),
   (AttrKey.feels_like, item.feels_like),
   (AttrKey.uv, item.uv)]

/-- State of a `WeatherFlowWeatherEntity` after `__init__`: the two coordinator
references and the three attributes set in the constructor. -/
structure WeatherFlowWeatherEntity where
  coordinator : Coordinator
  forecast_coordinator : ForecastCoordinator
  attr_available : Bool
  daily_forecast : Bool
  is_metric : Bool

/-- Constructor `WeatherFlowWeatherEntity.__init__` (weather.py lines 105-126):
`_attr_available` copies the forecast coordinator's success flag and
`daily_forecast` is the Python substring test
`self.entity_description.key in _WEATHER_DAILY`. -/
def mkWeatherFlowWeatherEntity (coordinator : Coordinator)
    (forecast_coordinator : ForecastCoordinator)
    (description : WeatherEntityDescription) (is_metric : Bool) :
    WeatherFlowWeatherEntity :=
  { coordinator := coordinator
    forecast_coordinator := forecast_coordinator
    attr_available := forecast_coordinator.last_update_success
    daily_forecast := pyStrIn description.key _WEATHER_DAILY
    is_metric := is_metric }

/-- Modelled from the spec: the availability the host framework surfaces
for the entity is the stored `_attr_available` attribute (the read path
lives in the framework base entity and `entity.py`, not in the analysed
file; the spec says availability "is derived read-only from the external
coordinator's last-success flag and surfaced as-is"). -/
def WeatherFlowWeatherEntity.available (e : WeatherFlowWeatherEntity) : Bool :=
  e.attr_available

/-- Property `condition` (lines 128-131). -/
def WeatherFlowWeatherEntity.condition (e : WeatherFlowWeatherEntity)
    (table : ConditionTable) : PyResult (Option String) :=
  match getattr2 e.forecast_coordinator.data ForecastData.icon with
  | PyResult.attributeError => PyResult.attributeError
  | PyResult.ok icon => PyResult.ok (format_condition icon table)

/-- Property `temperature` (lines 133-136). -/
def WeatherFlowWeatherEntity.temperature (e : WeatherFlowWeatherEntity) :
    PyResult (Option ℚ) :=
  getattr2 e.coordinator.data CurrentObservation.air_temperature

/-- Property `temperature_unit` (lines 138-141). -/
def WeatherFlowWeatherEntity.temperature_unit (_e : WeatherFlowWeatherEntity) :
    String :=
  TEMP_CELSIUS

/-- Property `humidity` (lines 143-146). -/
def WeatherFlowWeatherEntity.humidity (e : WeatherFlowWeatherEntity) :
    PyResult (Option ℚ) :=
  getattr2 e.coordinator.data CurrentObservation.relative_humidity

/-- Property `pressure` (lines 148-151). -/
def WeatherFlowWeatherEntity.pressure (e : WeatherFlowWeatherEntity) :
    PyResult (Option ℚ) :=
  getattr2 e.coordinator.data CurrentObservation.sea_level_pressure

/-- Property `wind_speed` (lines 153-162): `None` propagates; metric
multiplies by 3.6 before rounding, imperial rounds the raw value. -/
def WeatherFlowWeatherEntity.wind_speed (e : WeatherFlowWeatherEntity) :
    PyResult (Option ℤ) :=
  match getattr2 e.coordinator.data CurrentObservation.wind_avg with
  | PyResult.attributeError => PyResult.attributeError
  | PyResult.ok none => PyResult.ok none
  | PyResult.ok (some w) =>
      if e.is_metric then PyResult.ok (some (roundHalfEven (w * (36 / 10))))
      else PyResult.ok (some (roundHalfEven w))

/-- Property `wind_bearing` (lines 164-167). -/
def WeatherFlowWeatherEntity.wind_bearing (e : WeatherFlowWeatherEntity) :
    PyResult (Option ℚ) :=
  getattr2 e.coordinator.data CurrentObservation.wind_direction

/-- Property `visibility` (lines 169-172). -/
def WeatherFlowWeatherEntity.visibility (e : WeatherFlowWeatherEntity) :
    PyResult (Option ℚ) :=
  getattr2 e.coordinator.data CurrentObservation.visibility

/-- Property `forecast` (lines 174-218): projects the selected horizon's
record list, building one dict per record in input order. -/
def WeatherFlowWeatherEntity.forecast (e : WeatherFlowWeatherEntity)
    (table : ConditionTable) : PyResult (List ForecastEntry) :=
  if e.daily_forecast then
    match getattr2 e.forecast_coordinator.data ForecastData.forecast_daily with
    | PyResult.attributeError => PyResult.attributeError
    | PyResult.ok records =>
        PyResult.ok (records.map (fun item => daily_entry item table))
  else
    match getattr2 e.forecast_coordinator.data ForecastData.forecast_hourly with
    | PyResult.attributeError => PyResult.attributeError
    | PyResult.ok records =>
        PyResult.ok (records.map (fun item => hourly_entry item table))

/-- The keys of a projected entry, in insertion order. -/
def entryKeys (entry : ForecastEntry) : List AttrKey :=
  entry.map Prod.fst

/-! ### Fixtures used by witnesses -/

/-- An observation with every field absent. -/
def obsEmpty : CurrentObservation := ⟨none, none, none, none, none, none⟩

/-- An observation whose wind average is 10 (m/s) and all else absent. -/
def obsTen : CurrentObservation := ⟨none, none, none, some 10, none, none⟩

/-- A forecast snapshot with no icon and empty record lists. -/
def fdEmpty : ForecastData := ⟨none, [], []⟩

/-- Build an entity state directly from the two data snapshots, the horizon
flag and the metric flag. -/
def entFix (cd : Option CurrentObservation) (fcd : Option ForecastData)
    (daily metric : Bool) : WeatherFlowWeatherEntity :=
  ⟨⟨cd⟩, ⟨fcd, true⟩, true, daily, metric⟩

/-! ### Helper lemmas -/

/-- Rounding half to even lands on an integer at distance at most 1/2. -/
theorem roundHalfEven_nearest (q : ℚ) : |(roundHalfEven q : ℚ) - q| ≤ 1 / 2 := by
  have h0 : (⌊q⌋ : ℚ) ≤ q := Int.floor_le q
  have h1 : q < (⌊q⌋ : ℚ) + 1 := Int.lt_floor_add_one q
  unfold roundHalfEven
  split_ifs with hlt hgt heven <;>
    simp only [not_lt] at * <;> rw [abs_le] <;> constructor <;> push_cast <;> linarith

/-- An absent condition code never matches any bucket. -/
theorem format_condition_none (table : ConditionTable) :
    format_condition none table = none := by
  have h : ∀ kv ∈ table, ¬ (pyIn none kv.2 = true) := by
    intro kv _
    simp [pyIn]
  simp [format_condition, List.find?_eq_none.mpr h]

/-! ### Claims -/

/-- C1: for every current-observation snapshot and metric flag,
`wind_speed` returns `None` when `wind_avg` is absent; otherwise it returns
an integer at distance at most 1/2 from `wind_avg * 3.6` when metric and
from the raw `wind_avg` when imperial; at raw value 10 this yields 36
(metric) and 10 (imperial). -/
theorem wind_speed_spec_C1 (e : WeatherFlowWeatherEntity)
    (obs : CurrentObservation) (hdata : e.coordinator.data = some obs) :
    (obs.wind_avg = none → e.wind_speed = PyResult.ok none) ∧
    (∀ w : ℚ, obs.wind_avg = some w →
      ∃ n : ℤ, e.wind_speed = PyResult.ok (some n) ∧
        |(n : ℚ) - (if e.is_metric then w * (36 / 10) else w)| ≤ 1 / 2 ∧
        (w = 10 →
          (e.is_metric = true → n = 36) ∧ (e.is_metric = false → n = 10))) := by
  constructor
  · intro h
    simp [WeatherFlowWeatherEntity.wind_speed, getattr2, hdata, h]
  · intro w hw
    cases hm : e.is_metric
    · refine ⟨roundHalfEven w, ?_, ?_, ?_⟩
      · simp [WeatherFlowWeatherEntity.wind_speed, getattr2, hdata, hw, hm]
      · simpa [hm] using roundHalfEven_nearest w
      · intro hw10
        subst hw10
        exact ⟨fun h => absurd h (by decide), fun _ => by norm_num [roundHalfEven]⟩
    · refine ⟨roundHalfEven (w * (36 / 10)), ?_, ?_, ?_⟩
      · simp [WeatherFlowWeatherEntity.wind_speed, getattr2, hdata, hw, hm]
      · simpa [hm] using roundHalfEven_nearest (w * (36 / 10))
      · intro hw10
        subst hw10
        exact ⟨fun _ => by norm_num [roundHalfEven], fun h => absurd h (by decide)⟩

/-- Witness for C1: wind average 10 m/s rounds to 36 km/h when metric and
to 10 when imperial. -/
theorem wind_speed_spec_C1_witness :
    (entFix (some obsTen) (some fdEmpty) true true).wind_speed =
      PyResult.ok (some 36) ∧
    (entFix (some obsTen) (some fdEmpty) true false).wind_speed =
      PyResult.ok (some 10) := by
  constructor
  · obtain ⟨n, hn, -, himp⟩ :=
      (wind_speed_spec_C1 (entFix (some obsTen) (some fdEmpty) true true)
        obsTen rfl).2 10 rfl
    rw [hn, (himp rfl).1 rfl]
  · obtain ⟨n, hn, -, himp⟩ :=
      (wind_speed_spec_C1 (entFix (some obsTen) (some fdEmpty) true false)
        obsTen rfl).2 10 rfl
    rw [hn, (himp rfl).2 rfl]

/-- C8: `temperature_unit` is the fixed Celsius constant for every entity
state, in particular irrespective of the metric/imperial flag. -/
theorem temperature_unit_spec_C8 (e e' : WeatherFlowWeatherEntity) :
    e.temperature_unit = TEMP_CELSIUS ∧ e.temperature_unit = e'.temperature_unit :=
  ⟨rfl, rfl⟩

/-- C9: the availability surfaced for a constructed entity is exactly the
forecast coordinator's `last_update_success` flag. -/
theorem available_spec_C9 (c : Coordinator) (fc : ForecastCoordinator)
    (d : WeatherEntityDescription) (m : Bool) :
    (mkWeatherFlowWeatherEntity c fc d m).available = fc.last_update_success :=
  rfl

/-- Mapping an empty condition table finds nothing. -/
theorem format_condition_nil (c : Option String) : format_condition c [] = none :=
  rfl

/-- Unfolding of `format_condition` over the first table entry. -/
theorem format_condition_cons (c : Option String) (hd : String × List String)
    (tl : ConditionTable) :
    format_condition c (hd :: tl) =
      if pyIn c hd.2 = true then some hd.1 else format_condition c tl := by
  by_cases h : pyIn c hd.2 = true
  · rw [if_pos h]
    unfold format_condition
    rw [List.find?_cons_of_pos tl
      (show (fun kv : String × List String => pyIn c kv.2) hd = true from h)]
    rfl
  · rw [if_neg h]
    unfold format_condition
    rw [List.find?_cons_of_neg tl
      (show ¬ (fun kv : String × List String => pyIn c kv.2) hd = true from h)]

/-- C2: a code contained in exactly one canonical bucket maps to that
bucket's key, and a code contained in several buckets maps to the first
matching bucket in table definition order. -/
theorem format_condition_spec_C2 :
    (∀ (table : ConditionTable) (c k : String) (codes : List String),
        (k, codes) ∈ table → c ∈ codes →
        (∀ kv ∈ table, c ∈ kv.2 → kv.1 = k) →
        format_condition (some c) table = some k) ∧
    (∀ (pre post : ConditionTable) (k : String) (codes : List String)
        (c : String),
        (∀ kv ∈ pre, c ∉ kv.2) → c ∈ codes →
        format_condition (some c) (pre ++ (k, codes) :: post) = some k) := by
  constructor
  · intro table c k codes hmem hc huniq
    induction table with
    | nil => exact absurd hmem (List.not_mem_nil _)
    | cons hd tl ih =>
      rw [format_condition_cons]
      by_cases hhd : pyIn (some c) hd.2 = true
      · rw [if_pos hhd]
        exact congrArg some (huniq hd (List.mem_cons_self hd tl)
          (by simpa [pyIn, List.contains] using hhd))
      · rw [if_neg hhd]
        have htl : (k, codes) ∈ tl := by
          rcases List.mem_cons.mp hmem with heq | h
          · exfalso
            apply hhd
            rw [← heq]
            simpa [pyIn, List.contains] using hc
          · exact h
        exact ih htl (fun kv hkv hckv => huniq kv (List.mem_cons_of_mem hd hkv) hckv)
  · intro pre post k codes c hpre hc
    induction pre with
    | nil =>
      rw [List.nil_append, format_condition_cons,
        if_pos (show pyIn (some c) (k, codes).2 = true by
          simpa [pyIn, List.contains] using hc)]
    | cons hd tl ih =>
      rw [List.cons_append, format_condition_cons,
        if_neg (show ¬ pyIn (some c) hd.2 = true by
          simpa [pyIn, List.contains] using hpre hd (List.mem_cons_self hd tl))]
      exact ih (fun kv hkv => hpre kv (List.mem_cons_of_mem hd hkv))

/-- Witness for C2: a uniquely bucketed code maps to its bucket's key, and
a code present under two keys maps to the earlier one. -/
theorem format_condition_spec_C2_witness :
    format_condition (some "clear-day") [("sunny", ["clear-day"])] =
      some "sunny" ∧
    format_condition (some "rainy")
        [("sunny", ["clear-day"]), ("rainy", ["rainy"]),
         ("pouring", ["rainy"])] =
      some "rainy" := by
  constructor
  · exact format_condition_spec_C2.1 [("sunny", ["clear-day"])] "clear-day"
      "sunny" ["clear-day"] (by simp) (by simp) (by simp)
  · exact format_condition_spec_C2.2 [("sunny", ["clear-day"])]
      [("pouring", ["rainy"])] "rainy" ["rainy"] "rainy" (by simp) (by simp)

/-- C3: a code contained in no bucket, or an absent code, maps to the
absence value (and the lookup is total, so no exception arises). -/
theorem format_condition_spec_C3 (table : ConditionTable) (c : Option String)
    (habs : ∀ s, c = some s → ∀ kv ∈ table, s ∉ kv.2) :
    format_condition c table = none := by
  rcases c with _ | s
  · exact format_condition_none table
  · have h : ∀ kv ∈ table,
        ¬ ((fun kv : String × List String => pyIn (some s) kv.2) kv = true) := by
      intro kv hkv
      simpa [pyIn, List.contains] using habs s rfl kv hkv
    unfold format_condition
    rw [List.find?_eq_none.mpr h]
    rfl

/-- Witness for C3: an unknown code and an absent code both map to the
absence value. -/
theorem format_condition_spec_C3_witness :
    format_condition (some "foo") [("sunny", ["clear-day"])] = none ∧
    format_condition none [("sunny", ["clear-day"])] = none := by
  constructor
  · exact format_condition_spec_C3 [("sunny", ["clear-day"])] (some "foo")
      (by simp)
  · exact format_condition_spec_C3 [("sunny", ["clear-day"])] none
      (fun s h => nomatch h)

/-- Keys of a projected daily entry, in insertion order. -/
theorem entryKeys_daily (r : ForecastDailyDescription) (table : ConditionTable) :
    entryKeys (daily_entry r table) =
      [AttrKey.time, AttrKey.temp, AttrKey.temp_low, AttrKey.precipitation,
       AttrKey.precipitation_probability, AttrKey.condition, AttrKey.wind_speed,
       AttrKey.wind_bearing, AttrKey.sunrise, AttrKey.sunset] :=
  rfl

/-- Keys of a projected hourly entry, in insertion order. -/
theorem entryKeys_hourly (r : ForecastHourlyDescription) (table : ConditionTable) :
    entryKeys (hourly_entry r table) =
      [AttrKey.time, AttrKey.temp, AttrKey.precipitation,
       AttrKey.precipitation_probability, AttrKey.condition, AttrKey.wind_speed,
       AttrKey.wind_gust, AttrKey.wind_bearing, AttrKey.feels_like, AttrKey.uv] :=
  rfl

/-- C4: for every forecast snapshot and both horizons, the projection
returns one entry per record in input order (index-by-index), and an empty
record list yields the empty sequence, not absence or an error. -/
theorem forecast_spec_C4 (e : WeatherFlowWeatherEntity) (fd : ForecastData)
    (table : ConditionTable) (hdata : e.forecast_coordinator.data = some fd) :
    ∃ out : List ForecastEntry,
      e.forecast table = PyResult.ok out ∧
      out.length = (if e.daily_forecast then fd.forecast_daily.length
                    else fd.forecast_hourly.length) ∧
      (e.daily_forecast = true → ∀ i : ℕ,
        out[i]? = (fd.forecast_daily[i]?).map (fun r => daily_entry r table)) ∧
      (e.daily_forecast = false → ∀ i : ℕ,
        out[i]? = (fd.forecast_hourly[i]?).map (fun r => hourly_entry r table)) ∧
      (e.daily_forecast = true → fd.forecast_daily = [] → out = []) ∧
      (e.daily_forecast = false → fd.forecast_hourly = [] → out = []) := by
  cases hdf : e.daily_forecast
  · refine ⟨fd.forecast_hourly.map (fun r => hourly_entry r table),
      ?_, ?_, ?_, ?_, ?_, ?_⟩
    · simp [WeatherFlowWeatherEntity.forecast, getattr2, hdata, hdf]
    · simp
    · intro h
      exact absurd h (by decide)
    · intro _ i
      exact List.getElem?_map _ _ _
    · intro h
      exact absurd h (by decide)
    · intro _ h
      simp [h]
  · refine ⟨fd.forecast_daily.map (fun r => daily_entry r table),
      ?_, ?_, ?_, ?_, ?_, ?_⟩
    · simp [WeatherFlowWeatherEntity.forecast, getattr2, hdata, hdf]
    · simp
    · intro _ i
      exact List.getElem?_map _ _ _
    · intro h
      exact absurd h (by decide)
    · intro _ h
      simp [h]
    · intro h
      exact absurd h (by decide)

/-- Witness for C4: the daily projection of an empty snapshot is the empty
sequence. -/
theorem forecast_spec_C4_witness :
    (entFix none (some fdEmpty) true true).forecast [] = PyResult.ok [] := by
  obtain ⟨out, h1, -, -, -, h5, -⟩ :=
    forecast_spec_C4 (entFix none (some fdEmpty) true true) fdEmpty [] rfl
  rw [h1, h5 rfl rfl]

/-- C6: on the same forecast snapshot, the daily-horizon entity's entries
carry the high/low temperature and sunrise/sunset keys and none of the
gust/feels-like/uv keys, while the hourly-horizon entity's entries carry
temperature, feels-like, uv and gust keys and no sunrise/sunset keys. -/
theorem forecast_shape_C6 (e1 e2 : WeatherFlowWeatherEntity) (fd : ForecastData)
    (table : ConditionTable)
    (h1 : e1.forecast_coordinator.data = some fd)
    (h2 : e2.forecast_coordinator.data = some fd)
    (hd1 : e1.daily_forecast = true) (hd2 : e2.daily_forecast = false) :
    ∃ d h : List ForecastEntry,
      e1.forecast table = PyResult.ok d ∧ e2.forecast table = PyResult.ok h ∧
      (∀ entry ∈ d,
        AttrKey.temp ∈ entryKeys entry ∧ AttrKey.temp_low ∈ entryKeys entry ∧
        AttrKey.sunrise ∈ entryKeys entry ∧ AttrKey.sunset ∈ entryKeys entry ∧
        AttrKey.wind_gust ∉ entryKeys entry ∧
        AttrKey.feels_like ∉ entryKeys entry ∧ AttrKey.uv ∉ entryKeys entry) ∧
      (∀ entry ∈ h,
        AttrKey.temp ∈ entryKeys entry ∧ AttrKey.feels_like ∈ entryKeys entry ∧
        AttrKey.uv ∈ entryKeys entry ∧ AttrKey.wind_gust ∈ entryKeys entry ∧
        AttrKey.sunrise ∉ entryKeys entry ∧ AttrKey.sunset ∉ entryKeys entry) := by
  refine ⟨fd.forecast_daily.map (fun r => daily_entry r table),
    fd.forecast_hourly.map (fun r => hourly_entry r table), ?_, ?_, ?_, ?_⟩
  · simp [WeatherFlowWeatherEntity.forecast, getattr2, h1, hd1]
  · simp [WeatherFlowWeatherEntity.forecast, getattr2, h2, hd2]
  · intro entry hmem
    obtain ⟨r, -, rfl⟩ := List.mem_map.mp hmem
    rw [entryKeys_daily]
    decide
  · intro entry hmem
    obtain ⟨r, -, rfl⟩ := List.mem_map.mp hmem
    rw [entryKeys_hourly]
    decide

/-- A sample daily record for witnesses. -/
def dRec : ForecastDailyDescription :=
  ⟨Val.vnone, Val.vnone, Val.vnone, Val.vnone, Val.vnone, none,
   Val.vnone, Val.vnone, 1700000000, 1700000000⟩

/-- A sample hourly record for witnesses. -/
def hRec : ForecastHourlyDescription :=
  ⟨Val.vnone, Val.vnone, Val.vnone, Val.vnone, none,
   Val.vnone, Val.vnone, Val.vnone, Val.vnone, Val.vnone⟩

/-- A forecast snapshot holding one daily and one hourly record. -/
def fdOne : ForecastData := ⟨none, [dRec], [hRec]⟩

/-- Witness for C6: the two horizons of a one-record snapshot produce the
stated shapes. -/
theorem forecast_shape_C6_witness :
    ∃ d h : List ForecastEntry,
      (entFix none (some fdOne) true true).forecast [] = PyResult.ok d ∧
      (entFix none (some fdOne) false true).forecast [] = PyResult.ok h ∧
      (∀ entry ∈ d,
        AttrKey.temp ∈ entryKeys entry ∧ AttrKey.temp_low ∈ entryKeys entry ∧
        AttrKey.sunrise ∈ entryKeys entry ∧ AttrKey.sunset ∈ entryKeys entry ∧
        AttrKey.wind_gust ∉ entryKeys entry ∧
        AttrKey.feels_like ∉ entryKeys entry ∧ AttrKey.uv ∉ entryKeys entry) ∧
      (∀ entry ∈ h,
        AttrKey.temp ∈ entryKeys entry ∧ AttrKey.feels_like ∈ entryKeys entry ∧
        AttrKey.uv ∈ entryKeys entry ∧ AttrKey.wind_gust ∈ entryKeys entry ∧
        AttrKey.sunrise ∉ entryKeys entry ∧ AttrKey.sunset ∉ entryKeys entry) :=
  forecast_shape_C6 (entFix none (some fdOne) true true)
    (entFix none (some fdOne) false true) fdOne [] rfl rfl rfl rfl

/-- C7: every projected daily entry carries sunrise and sunset values equal
to the epoch-seconds conversion of the record's fields, and the conversion
maps epoch 1700000000 exactly to 2023-11-14T22:13:20Z. -/
theorem forecast_daily_time_spec_C7 :
    (∀ (item : ForecastDailyDescription) (table : ConditionTable),
        (AttrKey.sunrise, instantVal (utc_from_timestamp item.sunrise)) ∈
          daily_entry item table ∧
        (AttrKey.sunset, instantVal (utc_from_timestamp item.sunset)) ∈
          daily_entry item table) ∧
    utc_from_timestamp 1700000000 =
      { year := 2023, month := 11, day := 14,
        hour := 22, minute := 13, second := 20 } := by
  refine ⟨fun item table => ⟨?_, ?_⟩, by decide⟩
  · simp [daily_entry]
  · simp [daily_entry]

/-- C10: the forecast projection is independent of the metric/imperial
flag: two entities sharing the forecast source and horizon produce the same
sequences, and every projected entry carries the raw record wind values
with no conversion. -/
theorem forecast_metric_spec_C10 (e1 e2 : WeatherFlowWeatherEntity)
    (table : ConditionTable)
    (hfc : e1.forecast_coordinator = e2.forecast_coordinator)
    (hdf : e1.daily_forecast = e2.daily_forecast) :
    e1.forecast table = e2.forecast table ∧
    (∀ r : ForecastDailyDescription,
        (AttrKey.wind_speed, r.wind_avg) ∈ daily_entry r table) ∧
    (∀ r : ForecastHourlyDescription,
        (AttrKey.wind_speed, r.wind_avg) ∈ hourly_entry r table ∧
        (AttrKey.wind_gust, r.wind_gust) ∈ hourly_entry r table) := by
  refine ⟨?_, fun r => by simp [daily_entry],
    fun r => ⟨by simp [hourly_entry], by simp [hourly_entry]⟩⟩
  unfold WeatherFlowWeatherEntity.forecast
  rw [hfc, hdf]

/-- Witness for C10: a metric and an imperial entity over the same snapshot
return the same forecast. -/
theorem forecast_metric_spec_C10_witness :
    (entFix none (some fdOne) true true).forecast [] =
      (entFix none (some fdOne) true false).forecast [] :=
  (forecast_metric_spec_C10 (entFix none (some fdOne) true true)
    (entFix none (some fdOne) true false) [] rfl rfl).1

/-- C5 (amended): when the coordinator snapshots are present, an absent
field in any accessor (temperature, humidity, pressure, wind bearing,
visibility, wind speed, condition) propagates as the absence value with no
fault; but before a snapshot has first been populated (coordinator data is
`None`), every accessor raises `AttributeError` instead of returning
absence. -/
theorem accessors_spec_C5 :
    (∀ (e : WeatherFlowWeatherEntity) (obs : CurrentObservation),
        e.coordinator.data = some obs →
        ((obs.air_temperature = none → e.temperature = PyResult.ok none) ∧
         (obs.relative_humidity = none → e.humidity = PyResult.ok none) ∧
         (obs.sea_level_pressure = none → e.pressure = PyResult.ok none) ∧
         (obs.wind_direction = none → e.wind_bearing = PyResult.ok none) ∧
         (obs.visibility = none → e.visibility = PyResult.ok none) ∧
         (obs.wind_avg = none → e.wind_speed = PyResult.ok none))) ∧
    (∀ (e : WeatherFlowWeatherEntity) (fd : ForecastData)
        (table : ConditionTable),
        e.forecast_coordinator.data = some fd → fd.icon = none →
        e.condition table = PyResult.ok none) ∧
    (∀ e : WeatherFlowWeatherEntity, e.coordinator.data = none →
        e.temperature = PyResult.attributeError ∧
        e.humidity = PyResult.attributeError ∧
        e.pressure = PyResult.attributeError ∧
        e.wind_bearing = PyResult.attributeError ∧
        e.visibility = PyResult.attributeError ∧
        e.wind_speed = PyResult.attributeError) ∧
    (∀ (e : WeatherFlowWeatherEntity) (table : ConditionTable),
        e.forecast_coordinator.data = none →
        e.condition table = PyResult.attributeError ∧
        e.forecast table = PyResult.attributeError) := by
  refine ⟨?_, ?_, ?_, ?_⟩
  · intro e obs h
    refine ⟨fun hf => ?_, fun hf => ?_, fun hf => ?_, fun hf => ?_,
      fun hf => ?_, fun hf => ?_⟩ <;>
      simp [WeatherFlowWeatherEntity.temperature,
        WeatherFlowWeatherEntity.humidity, WeatherFlowWeatherEntity.pressure,
        WeatherFlowWeatherEntity.wind_bearing,
        WeatherFlowWeatherEntity.visibility,
        WeatherFlowWeatherEntity.wind_speed, getattr2, h, hf]
  · intro e fd table h hicon
    simp [WeatherFlowWeatherEntity.condition, getattr2, h, hicon,
      format_condition_none]
  · intro e h
    refine ⟨?_, ?_, ?_, ?_, ?_, ?_⟩ <;>
      simp [WeatherFlowWeatherEntity.temperature,
        WeatherFlowWeatherEntity.humidity, WeatherFlowWeatherEntity.pressure,
        WeatherFlowWeatherEntity.wind_bearing,
        WeatherFlowWeatherEntity.visibility,
        WeatherFlowWeatherEntity.wind_speed, getattr2, h]
  · intro e table h
    constructor
    · simp [WeatherFlowWeatherEntity.condition, getattr2, h]
    · unfold WeatherFlowWeatherEntity.forecast
      cases hdf : e.daily_forecast <;> simp [getattr2, h, hdf]

/-- Counterexample for C5 as stated: before the coordinator snapshot is
first populated, `temperature` raises `AttributeError` rather than
returning the absence value. -/
theorem accessors_spec_C5_counterexample :
    (entFix none (some fdEmpty) true true).temperature =
      PyResult.attributeError ∧
    (PyResult.attributeError : PyResult (Option ℚ)) ≠ PyResult.ok none :=
  ⟨rfl, by decide⟩

/-- Witness for C5 (amended): an all-absent populated snapshot propagates
absence through `temperature`, and an unpopulated snapshot faults in
`wind_speed`. -/
theorem accessors_spec_C5_witness :
    (entFix (some obsEmpty) (some fdEmpty) true true).temperature =
      PyResult.ok none ∧
    (entFix none (some fdEmpty) true true).wind_speed =
      PyResult.attributeError := by
  constructor
  · exact (accessors_spec_C5.1 (entFix (some obsEmpty) (some fdEmpty) true true)
      obsEmpty rfl).1 rfl
  · exact (accessors_spec_C5.2.2.1 (entFix none (some fdEmpty) true true)
      rfl).2.2.2.2.2
